import Mathlib

/-!
Shallow embedding of the papabois plant-identification bot
(src/main.py, src/papaboisfinal.py, src/plantpersona.py, src/plantid.py).

External services (Telegram, the Kindwise identification API, the
OpenRouter chat endpoint) and the filesystem are modelled by explicit
environments: each call site is given an outcome (a returned value or a
raised exception) by the environment, and the Python control flow —
try/except/finally, early returns, truthiness tests — is translated
into pure Lean functions over those environments.
-/

namespace PapaBois

/-- Outcome of one external call: a value, or a raised exception with its
message (`str(e)` in the Python handlers). -/
inductive ExcResult (α : Type) where
  | ok (a : α)
  | raise (msg : String)
deriving DecidableEq, Repr

/-- Whether the call raised. -/
def ExcResult.isRaise : ExcResult α → Bool
  | .ok _ => false
  | .raise _ => true

/-- One candidate returned by the Kindwise classification
(`suggestion.name`, `suggestion.probability`).  Equality is structural,
as for the Python dataclass used by the kindwise client
(`suggestion == suggestions[0]` in src/main.py line 85). -/
structure Suggestion where
  name : String
  probability : ℚ
deriving DecidableEq, Repr

/-- The dict returned by `api.get_kb_detail` as used by the bot: the
`common_names` and `description` keys, each possibly absent. -/
structure KbDetails where
  common_names : Option (List String)
  description : Option String
deriving DecidableEq, Repr

/-- The empty details dict `{}` that `plant_info["details"]` starts as. -/
def KbDetails.empty : KbDetails := ⟨none, none⟩

/-- One entry of the `results` list built by `identify_plant_from_path`:
the keys `name`, `confidence`, `details`, and the optional
`healing_properties` key. -/
structure PlantInfo where
  name : String
  confidence : ℚ
  details : KbDetails
  healing : Option String
deriving DecidableEq, Repr

/-- The identification response object: whether it has a `result`
attribute, whether the result has a `classification` attribute, and the
suggestion list
`identification.result.classification.suggestions`. -/
structure IdentResponse where
  hasResult : Bool
  hasClassification : Bool
  suggestions : List Suggestion
deriving DecidableEq, Repr

/-- Environment for the per-candidate enrichment calls at loop index i:
the outcome of `api.search` (the entity access tokens), of
`api.get_kb_detail`, and of `api.ask_question`.  For the question, `ok
none` models a falsy response or one without a `messages` attribute, and
`ok (some l)` a response whose messages have contents `l`. -/
structure EnrichOutcome where
  search : ExcResult (List String)
  kbDetail : ExcResult KbDetails
  question : ExcResult (Option (List String))

/-- Environment of one `identify_plant_from_path` run: whether
`Path(image_path).is_file()` holds, the outcome of `api.identify`, and
the enrichment outcomes for each loop index. -/
structure IdentifyEnv where
  fileIsFile : Bool
  identify : ExcResult IdentResponse
  enrich : Nat → EnrichOutcome

/-- A record of one issued external service request, tagged with the loop
index that issued it. -/
inductive Call where
  | identify
  | search (i : Nat)
  | kbDetail (i : Nat)
  | question (i : Nat)
deriving DecidableEq, Repr

/-- The `api.ask_question` part of the inner try block of
`identify_plant_from_path` (src/main.py lines 84-92): reached only after
the search/kb-detail part did not raise; issues the question iff the
current suggestion equals `suggestions[0]`, and on a non-raising,
truthy response with a nonempty `messages` list stores the last message
content under `healing_properties`.  An empty `messages` list makes
`messages[-1]` raise IndexError, which the inner except swallows. -/
def questionStep (env : IdentifyEnv) (top s : Suggestion) (i : Nat)
    (info : PlantInfo) (calls : List Call) : PlantInfo × List Call :=
  if s = top then
    match (env.enrich i).question with
    | .raise _ => (info, calls ++ [Call.question i])
    | .ok none => (info, calls ++ [Call.question i])
    | .ok (some []) => (info, calls ++ [Call.question i])
    | .ok (some (m :: ms)) =>
        ({ info with healing := some ((m :: ms).getLastD "") },
         calls ++ [Call.question i])
  else (info, calls)

/-- One iteration of the `for suggestion in suggestions[:3]` loop of
`identify_plant_from_path` (src/main.py lines 66-96): builds the base
`plant_info`, then runs the inner try block — `api.search`; if the
entity list is truthy, `api.get_kb_detail` into `details`; then the
question step — any raise being caught and logged, after which the
(possibly partially updated) `plant_info` is appended. -/
def enrichStep (env : IdentifyEnv) (top s : Suggestion) (i : Nat) :
    PlantInfo × List Call :=
  let base : PlantInfo := ⟨s.name, s.probability, KbDetails.empty, none⟩
  match (env.enrich i).search with
  | .raise _ => (base, [Call.search i])
  | .ok entities =>
    match entities with
    | [] => questionStep env top s i base [Call.search i]
    | _ :: _ =>
      match (env.enrich i).kbDetail with
      | .raise _ => (base, [Call.search i, Call.kbDetail i])
      | .ok d =>
          questionStep env top s i { base with details := d }
            [Call.search i, Call.kbDetail i]

/-- The whole suggestion loop, threading the loop index: returns the
`results` list and the service calls issued, in order. -/
def processList (env : IdentifyEnv) (top : Suggestion) :
    Nat → List Suggestion → List PlantInfo × List Call
  | _, [] => ([], [])
  | j, s :: ss =>
    let pc := enrichStep env top s j
    let rest := processList env top (j + 1) ss
    (pc.1 :: rest.1, pc.2 ++ rest.2)

/-- The dict returned by `identify_plant_from_path`: either
`{"error": msg}` or `{"success": True, "results": rs}`. -/
inductive IdResult where
  | error (msg : String)
  | success (results : List PlantInfo)
deriving DecidableEq, Repr

/-- Whether the returned dict is of the error form. -/
def IdResult.isError : IdResult → Bool
  | .error _ => true
  | .success _ => false

/-- The function `identify_plant_from_path` (src/main.py lines 38-102), returning the
result dict together with the list of external service calls issued.
The outer try turns the FileNotFoundError raised on a missing file, and
any raise of `api.identify`, into `{"error": str(e)}`; missing
result/classification attributes and an empty suggestion list return
the two fixed error messages; otherwise the loop over the first three
suggestions builds the results list. -/
def identify_plant_from_path (path : String) (env : IdentifyEnv) :
    IdResult × List Call :=
  if env.fileIsFile then
    match env.identify with
    | .raise msg => (.error msg, [Call.identify])
    | .ok resp =>
      if resp.hasResult && resp.hasClassification then
        match resp.suggestions with
        | [] => (.error "No plant matches found", [Call.identify])
        | top :: rest =>
          let pr := processList env top 0 ((top :: rest).take 3)
          (.success pr.1, Call.identify :: pr.2)
      else (.error "No classification results available", [Call.identify])
  else (.error ("Image file not found: " ++ path), [])

/-- The Python format `f"{confidence:.1%}"`: the confidence times 100,
rendered with exactly one digit after the decimal point, followed by a
percent sign.  Modelled over ℚ (the source formats a float); the
rounding to tenths of a percent is half-up here, which does not affect
the one-decimal-place shape the spec talks about. -/
def formatPercent (q : ℚ) : String :=
  let t : ℕ := (⌊q * 1000 + 1 / 2⌋).toNat
  Nat.repr (t / 10) ++ "." ++ Nat.repr (t % 10) ++ "%"

/-- The first two `response +=` lines of one entry of the reply built by
`handle_photo` (src/main.py lines 152-153): the 1-based rank, the name
in asterisks, and the confidence percentage line. -/
def entryHeader (idx : Nat) (p : PlantInfo) : String :=
  Nat.repr idx ++ ". *" ++ p.name ++ "*\n   Confidence: " ++
    formatPercent p.confidence ++ "\n"

/-- The `Common names:` line (src/main.py lines 155-156), emitted iff
`plant["details"].get("common_names")` is truthy, i.e. present and a
nonempty list. -/
def commonNamesLine (p : PlantInfo) : String :=
  match p.details.common_names with
  | some (n :: ns) =>
      "   Common names: " ++ String.intercalate ", " (n :: ns) ++ "\n"
  | _ => ""

/-- The `Description:` line (src/main.py lines 158-159), emitted iff the
description is present and nonempty, truncated to 200 characters with a
literal ellipsis. -/
def descriptionLine (p : PlantInfo) : String :=
  match p.details.description with
  | some d => if d = "" then "" else "   Description: " ++ d.take 200 ++ "...\n"
  | none => ""

/-- The `Healing Properties:` block (src/main.py lines 161-162), emitted
iff `idx == 1` and the `healing_properties` key is present. -/
def healingLine (idx : Nat) (p : PlantInfo) : String :=
  match p.healing with
  | some h =>
      if idx = 1 then
        "\n   Healing Properties:\n   " ++ h.take 200 ++ "...\n"
      else ""
  | none => ""

/-- The conditional tail of one entry plus the trailing blank line
(src/main.py lines 155-164). -/
def entryTail (idx : Nat) (p : PlantInfo) : String :=
  commonNamesLine p ++ descriptionLine p ++ healingLine idx p ++ "\n"

/-- One full entry of the formatted reply. -/
def formatEntry (idx : Nat) (p : PlantInfo) : String :=
  entryHeader idx p ++ entryTail idx p

/-- The entries of the reply, one per result, numbered from 1 as by
`enumerate(identification_result["results"], 1)`. -/
def formatEntries (rs : List PlantInfo) : List String :=
  (rs.enumFrom 1).map (fun p => formatEntry p.1 p.2)

/-- The full reply text built by `handle_photo` on success
(src/main.py lines 150-164). -/
def formatResponse (rs : List PlantInfo) : String :=
  "🌿 *Plant Identification Results*\n\n" ++ String.join (formatEntries rs)

/-- Outcome of the OpenRouter HTTP POST: a raised exception, or a
response with a status code and, for the body, `some content` when
`response.json()["choices"][0]["message"]["content"]` evaluates to that
content and `none` when extracting it raises. -/
inductive HttpOutcome where
  | raise (msg : String)
  | status (code : Nat) (body : Option String)
deriving DecidableEq, Repr

/-- The function `get_plant_persona` of src/papaboisfinal.py lines 91-132: builds the
prompt (total on our `PlantInfo`), posts it, returns the extracted
content on HTTP 200; a non-200 status returns the meditation
placeholder, and any raise — of the post or of the body extraction — is
caught by the except and returns the communing placeholder. -/
def get_plant_persona (_p : PlantInfo) (env : HttpOutcome) : String :=
  match env with
  | .raise _ => "I am currently communing with nature... Try again later 🌱"
  | .status code body =>
    if code = 200 then
      match body with
      | some content => content
      | none => "I am currently communing with nature... Try again later 🌱"
    else "I seem to be in deep meditation at the moment... 🌿"

/-- The function `get_openrouter_response` of src/plantpersona.py lines 46-83: same
shape with its own two placeholder strings. -/
def get_openrouter_response (env : HttpOutcome) : String :=
  match env with
  | .raise _ => "Nature\x27s wisdom is temporarily veiled... 🍃"
  | .status code body =>
    if code = 200 then
      match body with
      | some content => content
      | none => "Nature\x27s wisdom is temporarily veiled... 🍃"
    else "The spirits are quiet at the moment... 🌿"

/-- Outcome of a Telegram bot call that returns no data the handler
inspects (`reply_to`, `get_file`, `download_file`,
`edit_message_text`): it either completes or raises. -/
inductive Outcome where
  | ok
  | raise
deriving DecidableEq, Repr

/-- Whether the call completed. -/
def Outcome.isOk : Outcome → Bool
  | .ok => true
  | .raise => false

/-- Outcome of `open(photo_path, "wb")` followed by the write: completed,
failed before the file was created, or failed after. -/
inductive WriteOutcome where
  | ok
  | failNoFile
  | failWithFile
deriving DecidableEq, Repr

/-- Environment of one `handle_photo` invocation: the outcome of each
Telegram call, the downloaded photo bytes, the write outcome, the
identification environment, and — for the papaboisfinal variant — the
persona call outcomes. -/
structure PhotoEnv where
  replyProcessing : Outcome
  getFile : Outcome
  downloadFile : Outcome
  photoContent : List Nat
  write : WriteOutcome
  idEnv : IdentifyEnv
  editError : Outcome
  editSuccess : Outcome
  replyExcept : Outcome
  replySpirit : Outcome
  persona : HttpOutcome
  replyPersona : Outcome

/-- Per-user conversation state: `waiting_for_photo` is the one state of
`UserStates`; `idle` models having no stored state
(`bot.delete_state`). -/
inductive ConvState where
  | idle
  | awaitingPhoto
deriving DecidableEq, Repr

/-- The temp file path `f"temp_plant_{message.from_user.id}.jpg"`
(src/main.py line 134). -/
def tempPath (uid : Nat) : String :=
  "temp_plant_" ++ Nat.repr uid ++ ".jpg"

/-- What the try/except body of `handle_photo` leaves behind for the
finally block: whether the local `photo_path` was assigned, whether the
temp file is on disk, and the path written to (if assigned).  Outbound
message texts are not tracked here; no claim depends on them. -/
structure TryResult where
  pathDefined : Bool
  fileOnDisk : Bool
  pathUsed : Option String
deriving DecidableEq, Repr

/-- The try body of `handle_photo` in src/main.py lines 125-176.  Any
raise of a Telegram call lands in the except block (whose own
`reply_to` may raise again); either way control reaches the finally
block, so only the three fields above matter.  The temp file is assumed
absent when the handler starts. -/
def tryBlockMain (env : PhotoEnv) (uid : Nat) : TryResult :=
  match env.replyProcessing with
  | .raise => ⟨false, false, none⟩
  | .ok =>
  match env.getFile with
  | .raise => ⟨false, false, none⟩
  | .ok =>
  match env.downloadFile with
  | .raise => ⟨false, false, none⟩
  | .ok =>
    let path := tempPath uid
    match env.write with
    | .failNoFile => ⟨true, false, some path⟩
    | .failWithFile => ⟨true, true, some path⟩
    | .ok =>
      match (identify_plant_from_path path env.idEnv).1 with
      | .error _ =>
          -- edit_message_text with the error, then return: either way
          -- the finally block runs with the file on disk.
          ⟨true, true, some path⟩
      | .success rs =>
          let _response := formatResponse rs
          -- edit_message_text with the formatted response; a raise is
          -- caught by the except block.
          ⟨true, true, some path⟩

/-- The try body of `handle_photo` in src/papaboisfinal.py lines
219-272: identical up to the success branch, which additionally sends
the spirit reply, calls `get_plant_persona` on `results[0]`, and sends
the persona reply; none of these touch the file or the state. -/
def tryBlockFinal (env : PhotoEnv) (uid : Nat) : TryResult :=
  match env.replyProcessing with
  | .raise => ⟨false, false, none⟩
  | .ok =>
  match env.getFile with
  | .raise => ⟨false, false, none⟩
  | .ok =>
  match env.downloadFile with
  | .raise => ⟨false, false, none⟩
  | .ok =>
    let path := tempPath uid
    match env.write with
    | .failNoFile => ⟨true, false, some path⟩
    | .failWithFile => ⟨true, true, some path⟩
    | .ok =>
      match (identify_plant_from_path path env.idEnv).1 with
      | .error _ => ⟨true, true, some path⟩
      | .success rs =>
        match rs with
        | [] =>
            -- results[0] would raise IndexError, caught by the except.
            ⟨true, true, some path⟩
        | top :: _ =>
            let _msg := get_plant_persona top env.persona
            ⟨true, true, some path⟩

/-- Observable result of one `handle_photo` invocation. -/
structure PhotoRunResult where
  convState : ConvState
  fileOnDisk : Bool
  pathUsed : Option String
deriving DecidableEq, Repr

/-- The finally block of `handle_photo` (src/main.py lines 178-182):
`os.remove` iff `photo_path` is in locals and the file exists, then
`bot.delete_state`. -/
def cleanupFinally (t : TryResult) : PhotoRunResult :=
  ⟨ConvState.idle,
   if t.pathDefined && t.fileOnDisk then false else t.fileOnDisk,
   t.pathUsed⟩

/-- The handler `handle_photo` of src/main.py. -/
def runHandlePhotoMain (env : PhotoEnv) (uid : Nat) : PhotoRunResult :=
  cleanupFinally (tryBlockMain env uid)

/-- The handler `handle_photo` of src/papaboisfinal.py. -/
def runHandlePhotoFinal (env : PhotoEnv) (uid : Nat) : PhotoRunResult :=
  cleanupFinally (tryBlockFinal env uid)

/-- Whether the three calls before the temp path is assigned all
completed, so that the handler reached the file write. -/
def downloadOk (env : PhotoEnv) : Bool :=
  env.replyProcessing.isOk && env.getFile.isOk && env.downloadFile.isOk

/-- Inbound message content, as the telebot handler filters see it.
The two command constructors are messages of content type text whose
text is the command (`/start`, `/whois_plant`): the commands filter of
telebot matches them before any other handler, so `text` here stands
for non-command text only.  The last four constructors are content
types for which the bot registers no handler at all (voice, sticker,
video note, location, standing in for every other unregistered type):
on them the bot sends nothing. -/
inductive Content where
  | cmdStart
  | cmdWhois
  | photo
  | text (s : String)
  | document
  | audio
  | video
  | voice
  | sticker
  | videoNote
  | location
deriving DecidableEq, Repr

/-- The reply of `handle_invalid_input` (src/main.py line 187). -/
def rejectionMsg : String :=
  "Please send a photo 📸 of the plant you want to identify."

/-- The reply of `cmd_whois_plant` (src/main.py line 119). -/
def promptMsg : String :=
  "📸 Please send me a photo of the plant you want to identify."

/-- The reply of `cmd_start` (src/main.py lines 108-112). -/
def welcomeMsg : String :=
  "🌿 Welcome! This bot identifies plants from photos using Kindwise.\n" ++
  "Type /whois_plant to begin."

/-- One dispatch of an inbound message for one user, following the
telebot handler registrations of src/main.py: `/start` replies and
leaves the state; `/whois_plant` sets `waiting_for_photo` and replies
(its command filter carries no state restriction, so it also fires
while awaiting); a photo is handled by `handle_photo` only in the
`waiting_for_photo` state; non-command text/document/audio/video in
that state hit `handle_invalid_input`, which only replies; a message
of a content type with no registered handler (voice, sticker, video
note, location, and so on) matches nothing: no reply is sent and no
state changes.  Returns the new state and the replies sent by the
simple handlers (the replies of `handle_photo` are not modelled). -/
def dispatch (env : PhotoEnv) (uid : Nat) (st : ConvState) (c : Content) :
    ConvState × List String :=
  match c with
  | .cmdStart => (st, [welcomeMsg])
  | .cmdWhois => (ConvState.awaitingPhoto, [promptMsg])
  | .photo =>
      if st = ConvState.awaitingPhoto then
        ((runHandlePhotoMain env uid).convState, [])
      else (st, [])
  | .text _ =>
      if st = ConvState.awaitingPhoto then (st, [rejectionMsg]) else (st, [])
  | .document =>
      if st = ConvState.awaitingPhoto then (st, [rejectionMsg]) else (st, [])
  | .audio =>
      if st = ConvState.awaitingPhoto then (st, [rejectionMsg]) else (st, [])
  | .video =>
      if st = ConvState.awaitingPhoto then (st, [rejectionMsg]) else (st, [])
  | .voice => (st, [])
  | .sticker => (st, [])
  | .videoNote => (st, [])
  | .location => (st, [])

/-- Written from the words of the amended claim C2: the result is of
the error form precisely when the image file does not exist, the
identification call raises, the response lacks the
result/classification payload, or the candidate list is empty. -/
def specErrorCond (env : IdentifyEnv) : Bool :=
  !env.fileIsFile || env.identify.isRaise ||
    (match env.identify with
     | .ok r => !r.hasResult || !r.hasClassification || r.suggestions.isEmpty
     | .raise _ => false)

/-- The loop indices at which an `api.ask_question` request was issued. -/
def questionIdxs (cs : List Call) : List Nat :=
  cs.filterMap (fun c => match c with
    | .question i => some i
    | _ => none)

/-- Whether the search/kb-detail part of the inner try block at loop
index i completes without raising, so that control reaches the
question guard. -/
def kbPhasePassed (env : IdentifyEnv) (i : Nat) : Bool :=
  match (env.enrich i).search with
  | .raise _ => false
  | .ok ents => ents.isEmpty || !(env.enrich i).kbDetail.isRaise

/-- The knowledge-base lookup for loop index i raises: either the
search call raises, or it returns a nonempty entity list and the
detail fetch raises. -/
def kbStepFails (env : IdentifyEnv) (i : Nat) : Prop :=
  (∃ m, (env.enrich i).search = ExcResult.raise m) ∨
  (∃ m ents, (env.enrich i).search = ExcResult.ok ents ∧ ents ≠ [] ∧
      (env.enrich i).kbDetail = ExcResult.raise m)

/-- Enrichment environment in which every call completes: the search
returns no entities and the question returns a falsy response. -/
def enrichAllOk : Nat → EnrichOutcome :=
  fun _ => ⟨ExcResult.ok [], ExcResult.ok KbDetails.empty, ExcResult.ok none⟩

/-- A concrete top suggestion. -/
def sugA : Suggestion := ⟨"Hibiscus rosa-sinensis", mkRat 91 100⟩

/-- A concrete second suggestion, distinct from `sugA`. -/
def sugB : Suggestion := ⟨"Rosa chinensis", mkRat 6 100⟩

/-- Identification environment in which everything completes:
the file exists and the response carries two candidates. -/
def idEnvOk : IdentifyEnv :=
  ⟨true, ExcResult.ok ⟨true, true, [sugA, sugB]⟩, enrichAllOk⟩

/-- Identification environment whose image file is missing. -/
def idEnvNoFile : IdentifyEnv :=
  ⟨false, ExcResult.ok ⟨true, true, [sugA]⟩, enrichAllOk⟩

/-- Identification environment in which the identification call
succeeds with one candidate but every knowledge-base search raises. -/
def idEnvSearchRaises : IdentifyEnv :=
  ⟨true, ExcResult.ok ⟨true, true, [sugA]⟩,
   fun _ => ⟨ExcResult.raise "search down", ExcResult.ok KbDetails.empty,
             ExcResult.ok none⟩⟩

/-- Identification environment in which the top suggestion appears
twice and the knowledge-base search raises for index 0 only. -/
def idEnvDup : IdentifyEnv :=
  ⟨true, ExcResult.ok ⟨true, true, [sugA, sugA]⟩,
   fun i =>
     if i = 0 then
       ⟨ExcResult.raise "search down", ExcResult.ok KbDetails.empty,
        ExcResult.ok none⟩
     else ⟨ExcResult.ok [], ExcResult.ok KbDetails.empty, ExcResult.ok none⟩⟩

/-- Photo-handler environment in which every call completes. -/
def photoEnvOk : PhotoEnv :=
  ⟨Outcome.ok, Outcome.ok, Outcome.ok, [1, 2, 3], WriteOutcome.ok, idEnvOk,
   Outcome.ok, Outcome.ok, Outcome.ok, Outcome.ok,
   HttpOutcome.status 200 (some "A mystical greeting"), Outcome.ok⟩

/-- A concrete plant-info record. -/
def plantW : PlantInfo := ⟨"Hibiscus rosa-sinensis", mkRat 91 100, KbDetails.empty, none⟩

/-- The results list `identify_plant_from_path` produces under `idEnvOk`. -/
def rsW : List PlantInfo :=
  [⟨"Hibiscus rosa-sinensis", mkRat 91 100, KbDetails.empty, none⟩,
   ⟨"Rosa chinensis", mkRat 6 100, KbDetails.empty, none⟩]

lemma cleanupFinally_convState (t : TryResult) :
    (cleanupFinally t).convState = ConvState.idle := rfl

lemma cleanupFinally_file (t : TryResult)
    (h : t.fileOnDisk = true → t.pathDefined = true) :
    (cleanupFinally t).fileOnDisk = false := by
  unfold cleanupFinally
  rcases t with ⟨pd, fd, pu⟩
  dsimp at h ⊢
  cases fd
  · simp
  · rw [h rfl]
    simp

lemma tryBlockMain_inv (env : PhotoEnv) (uid : Nat) :
    (tryBlockMain env uid).fileOnDisk = true →
      (tryBlockMain env uid).pathDefined = true := by
  unfold tryBlockMain
  cases env.replyProcessing <;> cases env.getFile <;> cases env.downloadFile <;>
    cases env.write <;>
    first
      | (intro _; rfl)
      | (rcases hI : (identify_plant_from_path (tempPath uid) env.idEnv).1 with m | rs <;>
          (try cases rs) <;> simp [hI])

lemma tryBlockFinal_inv (env : PhotoEnv) (uid : Nat) :
    (tryBlockFinal env uid).fileOnDisk = true →
      (tryBlockFinal env uid).pathDefined = true := by
  unfold tryBlockFinal
  cases env.replyProcessing <;> cases env.getFile <;> cases env.downloadFile <;>
    cases env.write <;>
    first
      | (intro _; rfl)
      | (rcases hI : (identify_plant_from_path (tempPath uid) env.idEnv).1 with m | rs <;>
          (try cases rs) <;> simp [hI])

/-- C1: every invocation of the photo handler `handle_photo` — in both
the src/main.py and src/papaboisfinal.py variants, regardless of the
outcome of every external call (success, error result, or exception at
any point) — exits with the conversation state deleted (idle) and the
temporary image file no longer on disk. -/
theorem claim_C1 (env : PhotoEnv) (uid : Nat) :
    ((runHandlePhotoMain env uid).convState = ConvState.idle ∧
      (runHandlePhotoMain env uid).fileOnDisk = false) ∧
    ((runHandlePhotoFinal env uid).convState = ConvState.idle ∧
      (runHandlePhotoFinal env uid).fileOnDisk = false) :=
  ⟨⟨cleanupFinally_convState _, cleanupFinally_file _ (tryBlockMain_inv env uid)⟩,
   ⟨cleanupFinally_convState _, cleanupFinally_file _ (tryBlockFinal_inv env uid)⟩⟩

/-- C3: when the image path is not an existing regular file, the
identification step returns the error result and issues no external
service call at all. -/
theorem claim_C3 (path : String) (env : IdentifyEnv)
    (h : env.fileIsFile = false) :
    (identify_plant_from_path path env).1 =
      IdResult.error ("Image file not found: " ++ path) ∧
    (identify_plant_from_path path env).2 = [] := by
  unfold identify_plant_from_path
  rw [h]
  exact ⟨rfl, rfl⟩

/-- Witness for C3 at a concrete missing file. -/
theorem claim_C3_witness :
    (identify_plant_from_path "missing.jpg" idEnvNoFile).1 =
      IdResult.error ("Image file not found: " ++ "missing.jpg") ∧
    (identify_plant_from_path "missing.jpg" idEnvNoFile).2 = [] :=
  claim_C3 "missing.jpg" idEnvNoFile rfl

/-- C6: on every failing persona-generation input — a raised exception,
a non-200 HTTP status, or a 200 response whose body cannot be
extracted — `get_plant_persona` (src/papaboisfinal.py) returns one of
its two fixed placeholder strings, and `get_openrouter_response`
(src/plantpersona.py) one of its two; all four placeholders are
nonempty, and both functions are total, so the overall reply is still
sent. -/
theorem claim_C6 (p : PlantInfo) (m : String) (code : Nat)
    (body : Option String) (hc : code ≠ 200) :
    (get_plant_persona p (HttpOutcome.raise m) =
        "I am currently communing with nature... Try again later 🌱" ∧
      get_plant_persona p (HttpOutcome.status code body) =
        "I seem to be in deep meditation at the moment... 🌿" ∧
      get_plant_persona p (HttpOutcome.status 200 none) =
        "I am currently communing with nature... Try again later 🌱") ∧
    (get_openrouter_response (HttpOutcome.raise m) =
        "Nature\x27s wisdom is temporarily veiled... 🍃" ∧
      get_openrouter_response (HttpOutcome.status code body) =
        "The spirits are quiet at the moment... 🌿") ∧
    ("I am currently communing with nature... Try again later 🌱" ≠ "" ∧
      "I seem to be in deep meditation at the moment... 🌿" ≠ "" ∧
      "Nature\x27s wisdom is temporarily veiled... 🍃" ≠ "" ∧
      "The spirits are quiet at the moment... 🌿" ≠ "") := by
  refine ⟨⟨rfl, ?_, rfl⟩, ⟨rfl, ?_⟩, by decide, by decide, by decide, by decide⟩
  · simp [get_plant_persona, hc]
  · simp [get_openrouter_response, hc]

/-- Witness for C6 at a concrete plant and a concrete 404 status. -/
theorem claim_C6_witness :
    (get_plant_persona plantW (HttpOutcome.raise "connection reset") =
        "I am currently communing with nature... Try again later 🌱" ∧
      get_plant_persona plantW (HttpOutcome.status 404 none) =
        "I seem to be in deep meditation at the moment... 🌿" ∧
      get_plant_persona plantW (HttpOutcome.status 200 none) =
        "I am currently communing with nature... Try again later 🌱") ∧
    (get_openrouter_response (HttpOutcome.raise "connection reset") =
        "Nature\x27s wisdom is temporarily veiled... 🍃" ∧
      get_openrouter_response (HttpOutcome.status 404 none) =
        "The spirits are quiet at the moment... 🌿") ∧
    ("I am currently communing with nature... Try again later 🌱" ≠ "" ∧
      "I seem to be in deep meditation at the moment... 🌿" ≠ "" ∧
      "Nature\x27s wisdom is temporarily veiled... 🍃" ≠ "" ∧
      "The spirits are quiet at the moment... 🌿" ≠ "") :=
  claim_C6 plantW "connection reset" 404 none (by decide)

/-- Counterexample to C7 as stated: while the user awaits a photo, the
text message `/start` — a non-photo message of content type text — is
matched by the state-unfiltered `cmd_start` handler, registered before
`handle_invalid_input`, and is answered with the welcome text, not the
fixed rejection reply; and a voice message, whose content type has no
registered handler, gets no reply at all.  So not every non-photo
message received in the awaiting-photo state yields the rejection
reply. -/
theorem claim_C7_counterexample :
    dispatch photoEnvOk 7 ConvState.awaitingPhoto Content.cmdStart =
      (ConvState.awaitingPhoto, [welcomeMsg]) ∧
    welcomeMsg ≠ rejectionMsg ∧
    dispatch photoEnvOk 7 ConvState.awaitingPhoto Content.voice =
      (ConvState.awaitingPhoto, []) ∧
    ([] : List String) ≠ [rejectionMsg] :=
  ⟨rfl, by decide, rfl, by decide⟩

/-- C7 (amended): while the user awaits a photo, a message of one of
the four content types registered with `handle_invalid_input` — text
that is not a command, document, audio, video — yields exactly the
fixed rejection reply with the state unchanged; a command text is
taken by the state-unfiltered command handlers instead (`/start` gets
the welcome text with the state untouched, `/whois_plant` gets the
prompt and re-sets awaiting-photo); a message of a content type with
no registered handler (voice, sticker, video note, location) gets no
reply at all; and in every one of these non-photo cases the state
stays awaiting-photo. -/
theorem claim_C7_amended (env : PhotoEnv) (uid : Nat) (s : String) :
    (dispatch env uid ConvState.awaitingPhoto (Content.text s) =
        (ConvState.awaitingPhoto, [rejectionMsg]) ∧
      dispatch env uid ConvState.awaitingPhoto Content.document =
        (ConvState.awaitingPhoto, [rejectionMsg]) ∧
      dispatch env uid ConvState.awaitingPhoto Content.audio =
        (ConvState.awaitingPhoto, [rejectionMsg]) ∧
      dispatch env uid ConvState.awaitingPhoto Content.video =
        (ConvState.awaitingPhoto, [rejectionMsg])) ∧
    (dispatch env uid ConvState.awaitingPhoto Content.cmdStart =
        (ConvState.awaitingPhoto, [welcomeMsg]) ∧
      dispatch env uid ConvState.awaitingPhoto Content.cmdWhois =
        (ConvState.awaitingPhoto, [promptMsg])) ∧
    (dispatch env uid ConvState.awaitingPhoto Content.voice =
        (ConvState.awaitingPhoto, []) ∧
      dispatch env uid ConvState.awaitingPhoto Content.sticker =
        (ConvState.awaitingPhoto, []) ∧
      dispatch env uid ConvState.awaitingPhoto Content.videoNote =
        (ConvState.awaitingPhoto, []) ∧
      dispatch env uid ConvState.awaitingPhoto Content.location =
        (ConvState.awaitingPhoto, [])) := by
  refine ⟨⟨?_, ?_, ?_, ?_⟩, ⟨rfl, rfl⟩, rfl, rfl, rfl, rfl⟩ <;>
    simp [dispatch]

/-- C10: in both handler variants the temporary image path is
the literal `temp_plant_<userId>.jpg`: it is assigned exactly when the
three calls before the write complete, and its value is a function of
the user id alone, independent of the photo content, the message, and
every other part of the environment — so any two invocations by the
same user write to the identical path. -/
theorem claim_C10 (env : PhotoEnv) (uid : Nat) :
    tempPath uid = "temp_plant_" ++ Nat.repr uid ++ ".jpg" ∧
    (runHandlePhotoMain env uid).pathUsed =
      (if downloadOk env then some (tempPath uid) else none) ∧
    (runHandlePhotoFinal env uid).pathUsed =
      (if downloadOk env then some (tempPath uid) else none) := by
  refine ⟨rfl, ?_, ?_⟩
  · unfold runHandlePhotoMain cleanupFinally tryBlockMain downloadOk Outcome.isOk
    cases env.replyProcessing <;> cases env.getFile <;> cases env.downloadFile <;>
      cases env.write <;>
      first
        | (rcases hI : (identify_plant_from_path (tempPath uid) env.idEnv).1 with m | rs <;>
            (try cases rs) <;> simp [hI])
  · unfold runHandlePhotoFinal cleanupFinally tryBlockFinal downloadOk Outcome.isOk
    cases env.replyProcessing <;> cases env.getFile <;> cases env.downloadFile <;>
      cases env.write <;>
      first
        | (rcases hI : (identify_plant_from_path (tempPath uid) env.idEnv).1 with m | rs <;>
            (try cases rs) <;> simp [hI])

lemma processList_length (env : IdentifyEnv) (top : Suggestion)
    (j : Nat) (l : List Suggestion) :
    (processList env top j l).1.length = l.length := by
  induction l generalizing j with
  | nil => rfl
  | cons s ss ih => simp [processList, ih]

lemma processList_getElem? (env : IdentifyEnv) (top : Suggestion)
    (l : List Suggestion) (j i : Nat) :
    (processList env top j l).1[i]? =
      (l[i]?).map (fun s => (enrichStep env top s (j + i)).1) := by
  induction l generalizing j i with
  | nil => simp [processList]
  | cons s ss ih =>
    cases i with
    | zero => simp [processList]
    | succ n =>
      simp only [processList, List.getElem?_cons_succ]
      rw [ih (j + 1) n]
      have hjn : j + 1 + n = j + (n + 1) := by omega
      rw [hjn]

lemma identify_success_eq (path : String) (env : IdentifyEnv)
    (top : Suggestion) (rest : List Suggestion)
    (hf : env.fileIsFile = true)
    (hid : env.identify = ExcResult.ok ⟨true, true, top :: rest⟩) :
    identify_plant_from_path path env =
      (IdResult.success (processList env top 0 (top :: rest.take 2)).1,
       Call.identify :: (processList env top 0 (top :: rest.take 2)).2) := by
  unfold identify_plant_from_path
  rw [hf, hid]
  rfl

lemma enrichStep_fail (env : IdentifyEnv) (top s : Suggestion) (i : Nat)
    (hfail : kbStepFails env i) :
    (enrichStep env top s i).1 = ⟨s.name, s.probability, KbDetails.empty, none⟩ := by
  unfold enrichStep
  rcases hfail with ⟨m, hm⟩ | ⟨m, ents, hs, hne, hk⟩
  · rw [hm]
  · rw [hs]
    cases ents with
    | nil => exact absurd rfl hne
    | cons e es => rw [hk]

lemma formatEntry_plain (idx : Nat) (n : String) (c : ℚ) :
    formatEntry idx ⟨n, c, KbDetails.empty, none⟩ =
      entryHeader idx ⟨n, c, KbDetails.empty, none⟩ ++ "\n" := rfl

lemma repr_len_one : ∀ n : Nat, n < 10 → (Nat.repr n).length = 1 := by decide

lemma formatPercent_shape (q : ℚ) :
    ∃ w d, formatPercent q = w ++ "." ++ d ++ "%" ∧ d.length = 1 :=
  ⟨Nat.repr ((⌊q * 1000 + 1 / 2⌋).toNat / 10),
   Nat.repr ((⌊q * 1000 + 1 / 2⌋).toNat % 10), rfl,
   repr_len_one _ (Nat.mod_lt _ (by norm_num))⟩

/-- C2 (amended): `identify_plant_from_path` is total by construction
and returns the error form precisely when the image file does not
exist, the identification call raises, the response lacks the
result/classification payload, or the candidate list is empty — a
raise of the knowledge-base or question calls does not produce the
error form; otherwise the result is the success form with a nonempty
results list. -/
theorem claim_C2_amended (path : String) (env : IdentifyEnv) :
    (identify_plant_from_path path env).1.isError = specErrorCond env ∧
    ((identify_plant_from_path path env).1.isError = false →
      ∃ p ps, (identify_plant_from_path path env).1 = IdResult.success (p :: ps)) := by
  unfold identify_plant_from_path specErrorCond
  cases hf : env.fileIsFile
  · simp [IdResult.isError]
  · rcases hid : env.identify with ⟨hr, hc, sugs⟩ | m
    · cases hr
      · simp [IdResult.isError, ExcResult.isRaise]
      · cases hc
        · simp [IdResult.isError, ExcResult.isRaise]
        · cases sugs with
          | nil => simp [IdResult.isError, ExcResult.isRaise]
          | cons top tail =>
            refine ⟨by simp [IdResult.isError, ExcResult.isRaise], fun _ => ?_⟩
            exact ⟨(enrichStep env top top 0).1,
              (processList env top 1 (tail.take 2)).1, by simp [processList]⟩
    · simp [IdResult.isError, ExcResult.isRaise]

/-- Counterexample to C2 as stated: here a service call does raise —
the knowledge-base search at index 0 — yet the function returns the
success form, not the error form, because the inner try swallows that
raise. -/
theorem claim_C2_counterexample :
    (idEnvSearchRaises.enrich 0).search = ExcResult.raise "search down" ∧
    Call.search 0 ∈ (identify_plant_from_path "img.jpg" idEnvSearchRaises).2 ∧
    (identify_plant_from_path "img.jpg" idEnvSearchRaises).1 =
      IdResult.success
        [⟨"Hibiscus rosa-sinensis", mkRat 91 100, KbDetails.empty, none⟩] := by
  refine ⟨rfl, by decide, by decide⟩

/-- Witness for C2 (amended) at a concrete successful environment. -/
theorem claim_C2_witness :
    ((identify_plant_from_path "img.jpg" idEnvOk).1.isError =
      specErrorCond idEnvOk) ∧
    ∃ p ps, (identify_plant_from_path "img.jpg" idEnvOk).1 =
      IdResult.success (p :: ps) :=
  ⟨(claim_C2_amended "img.jpg" idEnvOk).1,
   (claim_C2_amended "img.jpg" idEnvOk).2 (by decide)⟩

/-- C4: on a successful identification the results list has at most 3
entries (the truncation), the formatted reply is the header followed by
one block per result, block i is numbered i+1 and carries the name and
the formatted confidence of result i, and every confidence is rendered
with exactly one digit after the decimal point. -/
theorem claim_C4 (path : String) (env : IdentifyEnv) (rs : List PlantInfo)
    (h : (identify_plant_from_path path env).1 = IdResult.success rs) :
    rs.length ≤ 3 ∧
    formatResponse rs =
      "🌿 *Plant Identification Results*\n\n" ++ String.join (formatEntries rs) ∧
    (formatEntries rs).length = rs.length ∧
    (∀ i p, rs[i]? = some p →
      (formatEntries rs)[i]? = some (formatEntry (i + 1) p) ∧
      ∃ tail, formatEntry (i + 1) p =
        Nat.repr (i + 1) ++ ". *" ++ p.name ++ "*\n   Confidence: " ++
          formatPercent p.confidence ++ "\n" ++ tail) ∧
    (∀ p ∈ rs, ∃ w d,
      formatPercent p.confidence = w ++ "." ++ d ++ "%" ∧ d.length = 1) := by
  refine ⟨?_, rfl, ?_, ?_, ?_⟩
  · unfold identify_plant_from_path at h
    cases hf : env.fileIsFile <;> rw [hf] at h
    · exact absurd h (by simp)
    · rcases hid : env.identify with resp | m <;> rw [hid] at h
      · rcases resp with ⟨hr, hc, sugs⟩
        cases hr <;> cases hc <;> simp at h
        cases sugs with
        | nil => simp at h
        | cons top tail =>
          simp only [] at h
          injection h with h
          rw [← h, processList_length]
          simp [List.length_take]
      · exact absurd h (by simp)
  · simp [formatEntries, List.enumFrom_length]
  · intro i p hp
    constructor
    · simp [formatEntries, List.getElem?_map, List.getElem?_enumFrom, hp,
        Nat.add_comm 1 i]
    · exact ⟨entryTail (i + 1) p, rfl⟩
  · intro p _
    exact formatPercent_shape p.confidence

/-- Witness for C4 at a concrete two-candidate environment. -/
theorem claim_C4_witness :
    rsW.length ≤ 3 ∧
    formatResponse rsW =
      "🌿 *Plant Identification Results*\n\n" ++ String.join (formatEntries rsW) ∧
    (formatEntries rsW).length = rsW.length ∧
    (∀ i p, rsW[i]? = some p →
      (formatEntries rsW)[i]? = some (formatEntry (i + 1) p) ∧
      ∃ tail, formatEntry (i + 1) p =
        Nat.repr (i + 1) ++ ". *" ++ p.name ++ "*\n   Confidence: " ++
          formatPercent p.confidence ++ "\n" ++ tail) ∧
    (∀ p ∈ rsW, ∃ w d,
      formatPercent p.confidence = w ++ "." ++ d ++ "%" ∧ d.length = 1) :=
  claim_C4 "img.jpg" idEnvOk rsW (by decide)

/-- C5: if the knowledge-base lookup for candidate i raises — at the
search or at the detail fetch — that candidate is still appended to
the results (the overall result stays the success form, of full
length) carrying its name and confidence with empty details and no
healing text, and its formatted reply entry is exactly the numbered
header with name and confidence, with no detail lines. -/
theorem claim_C5 (path : String) (env : IdentifyEnv) (top : Suggestion)
    (rest : List Suggestion) (i : Nat) (s : Suggestion)
    (hf : env.fileIsFile = true)
    (hid : env.identify = ExcResult.ok ⟨true, true, top :: rest⟩)
    (hs : (top :: rest.take 2)[i]? = some s)
    (hfail : kbStepFails env i) :
    ∃ rs, (identify_plant_from_path path env).1 = IdResult.success rs ∧
      rs.length = (top :: rest.take 2).length ∧
      rs[i]? = some ⟨s.name, s.probability, KbDetails.empty, none⟩ ∧
      formatEntry (i + 1) ⟨s.name, s.probability, KbDetails.empty, none⟩ =
        entryHeader (i + 1) ⟨s.name, s.probability, KbDetails.empty, none⟩ ++
          "\n" := by
  refine ⟨(processList env top 0 (top :: rest.take 2)).1, ?_, ?_, ?_,
    formatEntry_plain _ _ _⟩
  · rw [identify_success_eq path env top rest hf hid]
  · exact processList_length env top 0 _
  · rw [processList_getElem?, hs]
    simp [enrichStep_fail env top s i hfail]

/-- Witness for C5 at a concrete environment whose only search raises. -/
theorem claim_C5_witness :
    ∃ rs, (identify_plant_from_path "img.jpg" idEnvSearchRaises).1 =
        IdResult.success rs ∧
      rs.length = ([sugA] : List Suggestion).length ∧
      rs[0]? = some ⟨sugA.name, sugA.probability, KbDetails.empty, none⟩ ∧
      formatEntry 1 ⟨sugA.name, sugA.probability, KbDetails.empty, none⟩ =
        entryHeader 1 ⟨sugA.name, sugA.probability, KbDetails.empty, none⟩ ++
          "\n" :=
  claim_C5 "img.jpg" idEnvSearchRaises sugA [] 0 sugA rfl rfl rfl
    (Or.inl ⟨"search down", rfl⟩)

lemma questionIdxs_append (a b : List Call) :
    questionIdxs (a ++ b) = questionIdxs a ++ questionIdxs b := by
  simp [questionIdxs, List.filterMap_append]

lemma questionStep_calls (env : IdentifyEnv) (top s : Suggestion) (i : Nat)
    (info : PlantInfo) (calls : List Call) :
    (questionStep env top s i info calls).2 =
      calls ++ (if s = top then [Call.question i] else []) := by
  unfold questionStep
  by_cases h : s = top
  · rw [if_pos h, if_pos h]
    rcases hq : (env.enrich i).question with o | m
    · cases o with
      | none => rfl
      | some l => cases l <;> rfl
    · rfl
  · rw [if_neg h, if_neg h]
    simp

lemma questionIdxs_enrichStep (env : IdentifyEnv) (top s : Suggestion)
    (i : Nat) :
    questionIdxs (enrichStep env top s i).2 =
      if s = top ∧ kbPhasePassed env i = true then [i] else [] := by
  unfold enrichStep kbPhasePassed
  rcases hs : (env.enrich i).search with ents | m
  · cases ents with
    | nil =>
      rw [questionStep_calls, questionIdxs_append]
      by_cases h : s = top <;> simp [h, questionIdxs]
    | cons e es =>
      rcases hk : (env.enrich i).kbDetail with d | m
      · rw [questionStep_calls, questionIdxs_append]
        by_cases h : s = top <;> simp [h, questionIdxs, ExcResult.isRaise]
      · simp [questionIdxs, ExcResult.isRaise]
  · simp [questionIdxs]

lemma questionIdxs_processList_none (env : IdentifyEnv) (top : Suggestion)
    (l : List Suggestion) (j : Nat) (h : ∀ s ∈ l, s ≠ top) :
    questionIdxs (processList env top j l).2 = [] := by
  induction l generalizing j with
  | nil => rfl
  | cons s ss ih =>
    simp only [processList]
    rw [questionIdxs_append, questionIdxs_enrichStep,
      if_neg (fun hc => h s (List.mem_cons_self s ss) hc.1),
      ih (j + 1) (fun x hx => h x (List.mem_cons_of_mem s hx))]
    rfl

/-- C8 (amended): the transitions of the per-user state machine are:
from idle, `/whois_plant` moves to awaiting-photo; from awaiting-photo,
a photo moves back to idle, while non-photo input leaves the state
awaiting-photo (unchanged, contrary to the original claim);
`/whois_plant` while awaiting re-sets awaiting-photo, `/start` never
changes the state, and a photo or other content while idle matches no
state-changing handler. -/
theorem claim_C8_amended (env : PhotoEnv) (uid : Nat) (st : ConvState)
    (s : String) :
    (dispatch env uid ConvState.idle Content.cmdWhois).1 =
      ConvState.awaitingPhoto ∧
    (dispatch env uid ConvState.awaitingPhoto Content.photo).1 =
      ConvState.idle ∧
    (dispatch env uid ConvState.awaitingPhoto (Content.text s)).1 =
      ConvState.awaitingPhoto ∧
    (dispatch env uid ConvState.awaitingPhoto Content.document).1 =
      ConvState.awaitingPhoto ∧
    (dispatch env uid ConvState.awaitingPhoto Content.audio).1 =
      ConvState.awaitingPhoto ∧
    (dispatch env uid ConvState.awaitingPhoto Content.video).1 =
      ConvState.awaitingPhoto ∧
    (dispatch env uid ConvState.awaitingPhoto Content.cmdWhois).1 =
      ConvState.awaitingPhoto ∧
    (dispatch env uid ConvState.idle Content.photo).1 = ConvState.idle ∧
    (dispatch env uid ConvState.idle (Content.text s)).1 = ConvState.idle ∧
    (dispatch env uid ConvState.idle Content.document).1 = ConvState.idle ∧
    (dispatch env uid ConvState.idle Content.audio).1 = ConvState.idle ∧
    (dispatch env uid ConvState.idle Content.video).1 = ConvState.idle ∧
    (dispatch env uid st Content.cmdStart).1 = st :=
  ⟨rfl, rfl, rfl, rfl, rfl, rfl, rfl, rfl, rfl, rfl, rfl, rfl, rfl⟩

/-- Counterexample to C8 as stated: a non-photo input received while
awaiting a photo leaves the user in the awaiting-photo state —
`handle_invalid_input` only replies and never clears the state — so it
does not move the user back to idle as the claim says. -/
theorem claim_C8_counterexample :
    dispatch photoEnvOk 7 ConvState.awaitingPhoto (Content.text "hello") =
      (ConvState.awaitingPhoto, [rejectionMsg]) ∧
    ConvState.awaitingPhoto ≠ ConvState.idle :=
  ⟨rfl, by decide⟩

/-- C9 (amended): on a successful identification, when the first three
candidates other than the head are not equal to the head and the
knowledge-base step for the top candidate does not raise, the
healing-properties question is issued exactly once, at loop index 0,
i.e. for the top-ranked candidate only. -/
theorem claim_C9_amended (path : String) (env : IdentifyEnv)
    (top : Suggestion) (rest : List Suggestion)
    (hf : env.fileIsFile = true)
    (hid : env.identify = ExcResult.ok ⟨true, true, top :: rest⟩)
    (hdup : ∀ s ∈ rest.take 2, s ≠ top)
    (hkb : kbPhasePassed env 0 = true) :
    questionIdxs (identify_plant_from_path path env).2 = [0] := by
  rw [identify_success_eq path env top rest hf hid]
  show questionIdxs (Call.identify :: (processList env top 0 (top :: rest.take 2)).2) = [0]
  have hcons : questionIdxs (Call.identify ::
      (processList env top 0 (top :: rest.take 2)).2) =
      questionIdxs (processList env top 0 (top :: rest.take 2)).2 := by
    simp [questionIdxs]
  rw [hcons]
  simp only [processList]
  rw [questionIdxs_append, questionIdxs_enrichStep, if_pos ⟨rfl, hkb⟩,
    questionIdxs_processList_none env top (rest.take 2) 1 hdup]
  rfl

/-- Counterexample to C9 as stated: with the top suggestion duplicated
at index 1 and the knowledge-base search raising at index 0, the
healing-properties question is issued exactly once but at loop index 1
— for the second candidate, not the first element of the suggestion
list, which never triggers it here. -/
theorem claim_C9_counterexample :
    idEnvDup.identify =
      ExcResult.ok ⟨true, true, [sugA, sugA]⟩ ∧
    questionIdxs (identify_plant_from_path "img.jpg" idEnvDup).2 = [1] :=
  ⟨rfl, by decide⟩

/-- Witness for C9 (amended) at a concrete two-candidate environment. -/
theorem claim_C9_witness :
    questionIdxs (identify_plant_from_path "img.jpg" idEnvOk).2 = [0] :=
  claim_C9_amended "img.jpg" idEnvOk sugA [sugB] rfl rfl (by decide)
    (by decide)

end PapaBois
